import Mathlib

/-!
Shallow embedding of the RSA signature provider
(providers/implementations/signature/rsa_sig.c) and proofs about its
context state machine, PSS salt-length resolution, padding transforms
and lifecycle flags.

Buffers are `List Int` (byte values), machine ints are `Int`, fallible
C functions returning 0/1 with a raised error become
`PROV_RSA_CTX × Except Err α` (state-passing).  The build modelled here
is the non-FIPS one: code under `#ifdef FIPS_MODULE` is compiled out and
code under `#ifndef FIPS_MODULE` is compiled in.
-/

namespace RsaSig

/-! ## External constants (openssl/rsa.h, openssl/evp.h, openssl/obj_mac.h,
internal/sizes.h).  Modelled from the spec: these are numeric tags consumed
from collaborator headers outside this repository's sources. -/

def RSA_PKCS1_PADDING : Int := 1
def RSA_NO_PADDING : Int := 3
def RSA_PKCS1_OAEP_PADDING : Int := 4
def RSA_X931_PADDING : Int := 5
def RSA_PKCS1_PSS_PADDING : Int := 6

def RSA_PSS_SALTLEN_DIGEST : Int := -1
def RSA_PSS_SALTLEN_AUTO : Int := -2
def RSA_PSS_SALTLEN_MAX : Int := -3
def RSA_PSS_SALTLEN_AUTO_DIGEST_MAX : Int := -4

def EVP_PKEY_OP_SIGN : Int := 16
def EVP_PKEY_OP_VERIFY : Int := 32
def EVP_PKEY_OP_VERIFYRECOVER : Int := 64
def EVP_PKEY_OP_SIGNMSG : Int := 16384
def EVP_PKEY_OP_VERIFYMSG : Int := 32768

def NID_undef : Int := 0
def NID_sha1 : Int := 64
def NID_ripemd160 : Int := 117
def NID_sha256 : Int := 672
def NID_sha384 : Int := 673
def NID_sha512 : Int := 674
def NID_sha224 : Int := 675

def OSSL_MAX_NAME_SIZE : Nat := 50

/-! ## Data model of the external collaborators (digest engine, RSA key). -/

/-- A digest engine handle: name, output size (`EVP_MD_get_size`), the
RSA-signature NID resolved by the external `ossl_digest_rsa_sign_get_md_nid`
(0 = `NID_undef` = no identifier defined), and the XOF predicate. -/
structure MD where
  name : String
  size : Int
  rsaSignNid : Int
  xof : Bool
  deriving DecidableEq, Repr

/-- Identity predicate on digests, `EVP_MD_is_a(md, name)`: modelled as
name equality. -/
def EVP_MD_is_a (md : MD) (name : String) : Bool :=
  md.name = name

/-- `EVP_MD_is_a` applied through a nullable digest pointer
(`EVP_MD_is_a(NULL, name)` is false). -/
def EVP_MD_is_a_opt (md : Option MD) (name : String) : Bool :=
  match md with
  | some m => EVP_MD_is_a m name
  | none => false

/-- `EVP_MD_get_size` through a nullable pointer (0 when absent). -/
def EVP_MD_get_size (md : Option MD) : Int :=
  match md with
  | some m => m.size
  | none => 0

/-- Modelled from the spec: the external digest resolver `EVP_MD_fetch`,
a fixed table of the digest engines available to this signature module. -/
def EVP_MD_fetch (name : String) : Option MD :=
  if name = "SHA1" then some ⟨"SHA1", 20, NID_sha1, false⟩
  else if name = "SHA2-224" then some ⟨"SHA2-224", 28, NID_sha224, false⟩
  else if name = "SHA2-256" then some ⟨"SHA2-256", 32, NID_sha256, false⟩
  else if name = "SHA2-384" then some ⟨"SHA2-384", 48, NID_sha384, false⟩
  else if name = "SHA2-512" then some ⟨"SHA2-512", 64, NID_sha512, false⟩
  else if name = "SHAKE-128" then some ⟨"SHAKE-128", 32, NID_undef, true⟩
  else if name = "NOSIGNID" then some ⟨"NOSIGNID", 32, NID_undef, false⟩
  else none

/-- Modelled from the spec: the external X9.31 trailer-byte lookup
`RSA_X931_hash_id`, -1 when the digest has no X9.31 identifier. -/
def RSA_X931_hash_id (nid : Int) : Int :=
  if nid = NID_sha1 then 0x33
  else if nid = NID_sha256 then 0x34
  else if nid = NID_sha384 then 0x36
  else if nid = NID_sha512 then 0x35
  else if nid = NID_ripemd160 then 0x31
  else -1

/-- Modelled from the spec: the external `ossl_rsa_oaeppss_nid2name`
mapping a PSS-restriction hash NID back to a fetchable digest name. -/
def ossl_rsa_oaeppss_nid2name (nid : Int) : Option String :=
  if nid = NID_sha1 then some "SHA1"
  else if nid = NID_sha224 then some "SHA2-224"
  else if nid = NID_sha256 then some "SHA2-256"
  else if nid = NID_sha384 then some "SHA2-384"
  else if nid = NID_sha512 then some "SHA2-512"
  else none

/-- RSA key type tag (`RSA_test_flags(rsa, RSA_FLAG_TYPE_MASK)`). -/
inductive RSAKeyType where
  | rsa
  | rsassapss
  deriving DecidableEq, Repr

/-- Embedded PSS parameter restrictions of an RSA-PSS key
(`RSA_PSS_PARAMS_30`); a key with `pss = none` is unrestricted. -/
structure PSSParams30 where
  hashalg : Int
  maskgenhashalg : Int
  saltlen : Int
  deriving DecidableEq, Repr

/-- The RSA key object consumed from key management: modulus byte size
(`RSA_size`), modulus bit length (`RSA_bits`), type tag, and for
PSS-typed keys their optional embedded restrictions. -/
structure RSAKey where
  size : Int
  bits : Int
  typ : RSAKeyType
  pss : Option PSSParams30
  deriving DecidableEq, Repr

/-- `RSA_size` through a nullable key pointer. -/
def RSA_size (k : Option RSAKey) : Int :=
  match k with
  | some key => key.size
  | none => 0

/-- `RSA_bits` through a nullable key pointer. -/
def RSA_bits (k : Option RSAKey) : Int :=
  match k with
  | some key => key.bits
  | none => 0

/-! ## Errors and results -/

/-- The error taxonomy raised by the provider (PROV_R_* / ERR_R_*);
`Failure` stands for a `return 0` with no reason code raised. -/
inductive Err where
  | NoKeySet
  | InvalidDigest
  | DigestNotAllowed
  | XofNotAllowed
  | InvalidPaddingMode
  | InvalidX931Digest
  | InvalidSaltLength
  | PssSaltTooSmall (floor actual : Int)
  | InvalidDigestLength
  | InvalidSignatureSize
  | OutputBufferTooSmall
  | KeySizeTooSmall
  | InvalidKey
  | AlgorithmMismatch
  | UpdateOutOfOrder
  | FinalOutOfOrder
  | OneshotOutOfOrder
  | UnsupportedOperation
  | RsaLibError
  | InternalError
  | Failure
  deriving DecidableEq, Repr

/-- Result of a sign entry point: either a size query answer (`sig == NULL`)
or the produced signature bytes. -/
inductive SignRes where
  | sizeOnly (n : Int)
  | signature (bytes : List Int)
  deriving DecidableEq, Repr

/-- Result of verify-recover: a size query answer or recovered bytes. -/
inductive RecoverRes where
  | sizeOnly (n : Int)
  | recovered (bytes : List Int)
  deriving DecidableEq, Repr

/-- A named parameter handled by the sigalg parameter store
(only `OSSL_SIGNATURE_PARAM_SIGNATURE` is settable there). -/
inductive SigParam where
  | signature (bytes : List Int)
  deriving DecidableEq, Repr

/-! ## The signature context -/

/-- The mutable context `PROV_RSA_CTX`.  The running digest engine state
`mdctx` is the digest it was initialised with plus the accumulated message
bytes; `tbuf` is the lazily allocated modulus-sized scratch buffer. -/
structure MDCtx where
  md : MD
  data : List Int
  deriving DecidableEq, Repr

structure PROV_RSA_CTX where
  rsa : Option RSAKey
  operation : Int
  flag_sigalg : Bool
  flag_allow_md : Bool
  mgf1_md_set : Bool
  flag_allow_update : Bool
  flag_allow_final : Bool
  flag_allow_oneshot : Bool
  md : Option MD
  mdctx : Option MDCtx
  mdnid : Int
  mdname : String
  pad_mode : Int
  mgf1_md : Option MD
  mgf1_mdnid : Int
  mgf1_mdname : String
  saltlen : Int
  min_saltlen : Int
  sig : Option (List Int)
  tbuf : Option (List Int)
  deriving DecidableEq, Repr

/-- `rsa_newctx`: zero-allocated context, then `flag_allow_md = 1`,
`saltlen = RSA_PSS_SALTLEN_AUTO_DIGEST_MAX`, `min_saltlen = -1`. -/
def rsa_newctx : PROV_RSA_CTX where
  rsa := none
  operation := 0
  flag_sigalg := false
  flag_allow_md := true
  mgf1_md_set := false
  flag_allow_update := false
  flag_allow_final := false
  flag_allow_oneshot := false
  md := none
  mdctx := none
  mdnid := 0
  mdname := ""
  pad_mode := 0
  mgf1_md := none
  mgf1_mdnid := 0
  mgf1_mdname := ""
  saltlen := RSA_PSS_SALTLEN_AUTO_DIGEST_MAX
  min_saltlen := -1
  sig := none
  tbuf := none

/-- `rsa_pss_restricted(prsactx)`: true if PSS parameters are restricted. -/
def rsa_pss_restricted (ctx : PROV_RSA_CTX) : Bool :=
  ctx.min_saltlen ≠ -1

/-- `rsa_get_md_size`: size of the bound digest, 0 when absent or when
`EVP_MD_get_size` is non-positive. -/
def rsa_get_md_size (ctx : PROV_RSA_CTX) : Int :=
  match ctx.md with
  | some md => if md.size ≤ 0 then 0 else md.size
  | none => 0

/-! ## Padding compatibility check and parameter restriction check -/

/-- `rsa_check_padding(prsactx, mdname, mgf1_mdname, mdnid)`. -/
def rsa_check_padding (ctx : PROV_RSA_CTX) (mdname mgf1_mdname : Option String)
    (mdnid : Int) : Except Err Unit :=
  if ctx.pad_mode = RSA_NO_PADDING then
    if mdname.isSome ∨ mdnid ≠ NID_undef then .error .InvalidPaddingMode
    else .ok ()
  else if ctx.pad_mode = RSA_X931_PADDING then
    if RSA_X931_hash_id mdnid = -1 then .error .InvalidX931Digest
    else .ok ()
  else if ctx.pad_mode = RSA_PKCS1_PSS_PADDING then
    let badmd : Bool :=
      match mdname with
      | some n => !EVP_MD_is_a_opt ctx.md n
      | none => false
    let badmgf1 : Bool :=
      match mgf1_mdname with
      | some n => !EVP_MD_is_a_opt ctx.mgf1_md n
      | none => false
    if rsa_pss_restricted ctx ∧ (badmd ∨ badmgf1) then
      .error .DigestNotAllowed
    else .ok ()
  else .ok ()

/-- `rsa_check_parameters(prsactx, min_saltlen)`: validates and installs the
key's embedded minimum salt length. -/
def rsa_check_parameters (ctx : PROV_RSA_CTX) (min_saltlen : Int) :
    PROV_RSA_CTX × Except Err Unit :=
  if ctx.pad_mode = RSA_PKCS1_PSS_PADDING then
    let max0 := RSA_size ctx.rsa - EVP_MD_get_size ctx.md
    let max_saltlen := if RSA_bits ctx.rsa % 8 = 1 then max0 - 1 else max0
    if min_saltlen < 0 ∨ min_saltlen > max_saltlen then
      (ctx, .error .InvalidSaltLength)
    else ({ctx with min_saltlen := min_saltlen}, .ok ())
  else (ctx, .ok ())

/-! ## PSS salt-length resolution -/

/-- First stage of `rsa_pss_compute_saltlen`: resolve the `DIGEST` policy
and turn `AUTO_DIGEST_MAX` into `MAX` while recording the digest-size cap
(`saltlenMax`, -1 when no cap was set). -/
def rsa_pss_saltlen_step1 (ctx : PROV_RSA_CTX) : Except Err (Int × Int) :=
  if ctx.saltlen = RSA_PSS_SALTLEN_DIGEST then
    if EVP_MD_get_size ctx.md ≤ 0 then .error .InvalidDigest
    else .ok (EVP_MD_get_size ctx.md, -1)
  else if ctx.saltlen = RSA_PSS_SALTLEN_AUTO_DIGEST_MAX then
    if EVP_MD_get_size ctx.md ≤ 0 then .error .InvalidDigest
    else .ok (RSA_PSS_SALTLEN_MAX, EVP_MD_get_size ctx.md)
  else .ok (ctx.saltlen, -1)

/-- The unclamped `MAX`/`AUTO` salt value of `rsa_pss_compute_saltlen`:
`rsasize - mdsize - 2`, one less for odd-bit-length moduli. -/
def rsa_pss_saltlen_unclamped (ctx : PROV_RSA_CTX) : Int :=
  if RSA_bits ctx.rsa % 8 = 1 then
    RSA_size ctx.rsa - EVP_MD_get_size ctx.md - 2 - 1
  else RSA_size ctx.rsa - EVP_MD_get_size ctx.md - 2

/-- Second stage of `rsa_pss_compute_saltlen`: the `MAX`/`AUTO` computation,
clamped to the cap recorded by the first stage (when the cap is ≥ 0). -/
def rsa_pss_saltlen_step2 (ctx : PROV_RSA_CTX) (salt1 saltlenMax : Int) :
    Except Err Int :=
  if salt1 = RSA_PSS_SALTLEN_MAX ∨ salt1 = RSA_PSS_SALTLEN_AUTO then
    if EVP_MD_get_size ctx.md ≤ 0 then .error .InvalidDigest
    else if RSA_size ctx.rsa ≤ 2
        ∨ RSA_size ctx.rsa - 2 < EVP_MD_get_size ctx.md then .error .InvalidKey
    else
      .ok (if 0 ≤ saltlenMax ∧ saltlenMax < rsa_pss_saltlen_unclamped ctx then
             saltlenMax
           else rsa_pss_saltlen_unclamped ctx)
  else .ok salt1

/-- Final stage of `rsa_pss_compute_saltlen`: reject a negative result as
an internal error and a result under the configured floor as too small. -/
def rsa_pss_saltlen_finish (ctx : PROV_RSA_CTX) (s : Int) : Except Err Int :=
  if s < 0 then .error .InternalError
  else if s < ctx.min_saltlen then .error (.PssSaltTooSmall ctx.min_saltlen s)
  else .ok s

/-- `rsa_pss_compute_saltlen(ctx)`: resolves the symbolic or numeric salt
length request to a concrete byte count, or fails. -/
def rsa_pss_compute_saltlen (ctx : PROV_RSA_CTX) : Except Err Int :=
  match rsa_pss_saltlen_step1 ctx with
  | .error e => .error e
  | .ok (salt1, saltlenMax) =>
    match rsa_pss_saltlen_step2 ctx salt1 saltlenMax with
    | .error e => .error e
    | .ok s => rsa_pss_saltlen_finish ctx s

/-! ## Digest binding -/

/-- `rsa_setup_md(ctx, mdname, mdprops, desc)` (property query and
description dropped; non-FIPS build).  A `none` name is a no-op. -/
def rsa_setup_md (ctx : PROV_RSA_CTX) (mdname : Option String) :
    PROV_RSA_CTX × Except Err Unit :=
  match mdname with
  | none => (ctx, .ok ())
  | some name =>
    match EVP_MD_fetch name with
    | none => (ctx, .error .InvalidDigest)
    | some md =>
      let md_nid := md.rsaSignNid
      if md_nid = NID_undef then (ctx, .error .DigestNotAllowed)
      else if md.xof then (ctx, .error .XofNotAllowed)
      else
        match rsa_check_padding ctx (some name) none md_nid with
        | .error e => (ctx, .error e)
        | .ok _ =>
          if name.length ≥ OSSL_MAX_NAME_SIZE then (ctx, .error .InvalidDigest)
          else if ¬ctx.flag_allow_md then
            if ctx.mdname ≠ "" ∧ ¬EVP_MD_is_a md ctx.mdname then
              (ctx, .error .DigestNotAllowed)
            else (ctx, .ok ())
          else
            let ctx1 :=
              if ¬ctx.mgf1_md_set then
                {ctx with mgf1_md := some md, mgf1_mdnid := md_nid,
                          mgf1_mdname := name}
              else ctx
            ({ctx1 with mdctx := none, md := some md, mdnid := md_nid,
                        mdname := name}, .ok ())

/-- `rsa_setup_mgf1_md(ctx, mdname, mdprops)`.  Note the C copies the
(possibly truncated) name into `mgf1_mdname` before the length check. -/
def rsa_setup_mgf1_md (ctx : PROV_RSA_CTX) (mdname : String) :
    PROV_RSA_CTX × Except Err Unit :=
  match EVP_MD_fetch mdname with
  | none => (ctx, .error .InvalidDigest)
  | some md =>
    let mdnid := md.rsaSignNid
    if mdnid ≤ 0 then (ctx, .error .DigestNotAllowed)
    else
      match rsa_check_padding ctx none (some mdname) mdnid with
      | .error e => (ctx, .error e)
      | .ok _ =>
        let ctx1 := {ctx with
          mgf1_mdname := mdname.take (OSSL_MAX_NAME_SIZE - 1)}
        if mdname.length ≥ OSSL_MAX_NAME_SIZE then (ctx1, .error .InvalidDigest)
        else
          ({ctx1 with mgf1_mdname := mdname, mgf1_md := some md,
                      mgf1_mdnid := mdnid, mgf1_md_set := true}, .ok ())

/-! ## Temp buffer management -/

/-- Overwrite the front of a buffer with `data` (memcpy semantics): bytes
past `data.length` keep their previous values. -/
def tbufWrite (old data : List Int) : List Int :=
  data ++ old.drop data.length

/-- `setup_tbuf(ctx)`: lazily allocate the modulus-sized scratch buffer
(allocation failure is not modelled; fresh memory is modelled as zeros,
its C contents are unspecified). -/
def setup_tbuf (ctx : PROV_RSA_CTX) : PROV_RSA_CTX :=
  if ctx.tbuf.isSome then ctx
  else {ctx with tbuf := some (List.replicate (RSA_size ctx.rsa).toNat 0)}

/-- `clean_tbuf(ctx)`: `OPENSSL_cleanse` of the scratch buffer when
present. -/
def clean_tbuf (ctx : PROV_RSA_CTX) : PROV_RSA_CTX :=
  if ctx.tbuf.isSome then
    {ctx with tbuf := some (List.replicate (RSA_size ctx.rsa).toNat 0)}
  else ctx

/-! ## External cryptographic primitives

The raw RSA transforms, the combined PKCS#1 v1.5 helpers and the PSS
encode/verify helpers live outside this module (§6 of the spec); they are
passed in as an environment of oracles.  `none` models a failing call
(`ret <= 0`). -/

structure Env where
  hash : MD → List Int → List Int
  priv_encrypt : Int → List Int → Option RSAKey → Int → Option (List Int)
  pub_decrypt : Int → List Int → Option RSAKey → Int → Option (List Int)
  rsa_sign_pkcs1 : Int → List Int → Option RSAKey → Option (List Int)
  rsa_verify_pkcs1 : Int → List Int → List Int → Option RSAKey → Bool
  ossl_rsa_verify_pkcs1 : Int → List Int → Option RSAKey → Option (List Int)
  sign_mdc2 : List Int → Option RSAKey → Option (List Int)
  pss_encode : Option RSAKey → List Int → Option MD → Option MD → Int →
    Option (List Int)
  pss_verify : Option RSAKey → List Int → Option MD → Option MD → List Int →
    Int → Option Int

/-! ## Sign transforms -/

/-- `rsa_sign_directly(prsactx, sig, siglen, sigsize, tbs, tbslen)`:
primitive signing of an already-final digest (or raw payload when no
digest is bound).  `haveSig = false` models `sig == NULL` (size query). -/
def rsa_sign_directly (env : Env) (ctx : PROV_RSA_CTX) (haveSig : Bool)
    (sigsize : Int) (tbs : List Int) : PROV_RSA_CTX × Except Err SignRes :=
  let rsasize := RSA_size ctx.rsa
  let mdsize := rsa_get_md_size ctx
  if ¬haveSig then (ctx, .ok (.sizeOnly rsasize))
  else if sigsize < rsasize then (ctx, .error .InvalidSignatureSize)
  else if mdsize ≠ 0 then
    if (tbs.length : Int) ≠ mdsize then (ctx, .error .InvalidDigestLength)
    else if EVP_MD_is_a_opt ctx.md "MDC2" then
      if ctx.pad_mode ≠ RSA_PKCS1_PADDING then (ctx, .error .InvalidPaddingMode)
      else
        match env.sign_mdc2 tbs ctx.rsa with
        | none => (ctx, .error .RsaLibError)
        | some s => (ctx, .ok (.signature s))
    else if ctx.pad_mode = RSA_X931_PADDING then
      if rsasize < (tbs.length : Int) + 1 then (ctx, .error .KeySizeTooSmall)
      else
        let ctx1 := setup_tbuf ctx
        let ctx2 := {ctx1 with tbuf := some (tbufWrite (ctx1.tbuf.getD [])
                        (tbs ++ [RSA_X931_hash_id ctx1.mdnid]))}
        let r := env.priv_encrypt ((tbs.length : Int) + 1) (ctx2.tbuf.getD [])
                   ctx2.rsa RSA_X931_PADDING
        let ctx3 := clean_tbuf ctx2
        match r with
        | none => (ctx3, .error .RsaLibError)
        | some s => (ctx3, .ok (.signature s))
    else if ctx.pad_mode = RSA_PKCS1_PADDING then
      match env.rsa_sign_pkcs1 ctx.mdnid tbs ctx.rsa with
      | none => (ctx, .error .RsaLibError)
      | some s => (ctx, .ok (.signature s))
    else if ctx.pad_mode = RSA_PKCS1_PSS_PADDING then
      if rsa_pss_restricted ctx ∧ ctx.saltlen = RSA_PSS_SALTLEN_DIGEST
          ∧ ctx.min_saltlen > EVP_MD_get_size ctx.md then
        (ctx, .error (.PssSaltTooSmall ctx.min_saltlen (EVP_MD_get_size ctx.md)))
      else if rsa_pss_restricted ctx ∧ 0 ≤ ctx.saltlen
          ∧ ctx.saltlen < ctx.min_saltlen then
        (ctx, .error (.PssSaltTooSmall ctx.min_saltlen ctx.saltlen))
      else
        let ctx1 := setup_tbuf ctx
        match env.pss_encode ctx1.rsa tbs ctx1.md ctx1.mgf1_md ctx1.saltlen with
        | none => (ctx1, .error .RsaLibError)
        | some em =>
          let ctx2 := {ctx1 with tbuf := some (tbufWrite (ctx1.tbuf.getD []) em)}
          let r := env.priv_encrypt rsasize (ctx2.tbuf.getD []) ctx2.rsa
                     RSA_NO_PADDING
          let ctx3 := clean_tbuf ctx2
          match r with
          | none => (ctx3, .error .RsaLibError)
          | some s => (ctx3, .ok (.signature s))
    else (ctx, .error .InvalidPaddingMode)
  else
    match env.priv_encrypt (tbs.length : Int) tbs ctx.rsa ctx.pad_mode with
    | none => (ctx, .error .RsaLibError)
    | some s => (ctx, .ok (.signature s))

/-- `rsa_signverify_message_update(vprsactx, data, datalen)`. -/
def rsa_signverify_message_update (ctx : PROV_RSA_CTX) (data : List Int) :
    PROV_RSA_CTX × Except Err Unit :=
  match ctx.mdctx with
  | none => (ctx, .error .Failure)
  | some m =>
    if ¬ctx.flag_allow_update then (ctx, .error .UpdateOutOfOrder)
    else
      ({ctx with flag_allow_oneshot := false,
                 mdctx := some ⟨m.md, m.data ++ data⟩}, .ok ())

/-- `rsa_sign_message_final(vprsactx, sig, siglen, sigsize)`; with
`sig == NULL` the running digest is left untouched and the call defers to
`rsa_sign_directly` for the size query. -/
def rsa_sign_message_final (env : Env) (ctx : PROV_RSA_CTX) (haveSig : Bool)
    (sigsize : Int) : PROV_RSA_CTX × Except Err SignRes :=
  match ctx.mdctx with
  | none => (ctx, .error .Failure)
  | some m =>
    if ¬ctx.flag_allow_final then (ctx, .error .FinalOutOfOrder)
    else if haveSig then
      let digest := env.hash m.md m.data
      let ctx1 := {ctx with flag_allow_update := false,
                            flag_allow_oneshot := false,
                            flag_allow_final := false}
      rsa_sign_directly env ctx1 true sigsize digest
    else rsa_sign_directly env ctx false sigsize []

/-- `rsa_sign(vprsactx, sig, siglen, sigsize, tbs, tbslen)`: oneshot
entry point; digests first when the operation is message signing. -/
def rsa_sign (env : Env) (ctx : PROV_RSA_CTX) (haveSig : Bool) (sigsize : Int)
    (tbs : List Int) : PROV_RSA_CTX × Except Err SignRes :=
  if ¬ctx.flag_allow_oneshot then (ctx, .error .OneshotOutOfOrder)
  else if ctx.operation = EVP_PKEY_OP_SIGNMSG then
    if ¬haveSig then rsa_sign_message_final env ctx false sigsize
    else
      match rsa_signverify_message_update ctx tbs with
      | (ctx1, .error e) => (ctx1, .error e)
      | (ctx1, .ok _) => rsa_sign_message_final env ctx1 true sigsize
  else rsa_sign_directly env ctx haveSig sigsize tbs

/-! ## Verify / verify-recover transforms -/

/-- `rsa_verify_recover(vprsactx, rout, routlen, routsize, sig, siglen)`.
`haveRout = false` models `rout == NULL` (size query); `routIsTbuf`
models the internal call where `rout == prsactx->tbuf` (then the
destination-size check and the copy are skipped). -/
def rsa_verify_recover (env : Env) (ctx : PROV_RSA_CTX)
    (haveRout routIsTbuf : Bool) (routsize : Int) (sig : List Int) :
    PROV_RSA_CTX × Except Err RecoverRes :=
  if ¬haveRout then (ctx, .ok (.sizeOnly (RSA_size ctx.rsa)))
  else if ctx.md.isSome then
    if ctx.pad_mode = RSA_X931_PADDING then
      let ctx1 := setup_tbuf ctx
      match env.pub_decrypt (sig.length : Int) sig ctx1.rsa RSA_X931_PADDING with
      | none => (ctx1, .error .RsaLibError)
      | some rec0 =>
        if rec0.length < 1 then (ctx1, .error .RsaLibError)
        else
          let ctx2 := {ctx1 with
            tbuf := some (tbufWrite (ctx1.tbuf.getD []) rec0)}
          let ret := rec0.length - 1
          if (ctx2.tbuf.getD []).getD ret 0 ≠ RSA_X931_hash_id ctx2.mdnid then
            (ctx2, .error .AlgorithmMismatch)
          else if (ret : Int) ≠ EVP_MD_get_size ctx2.md then
            (ctx2, .error .InvalidDigestLength)
          else if routIsTbuf then
            (ctx2, .ok (.recovered ((ctx2.tbuf.getD []).take ret)))
          else if routsize < (ret : Int) then
            (ctx2, .error .OutputBufferTooSmall)
          else (ctx2, .ok (.recovered ((ctx2.tbuf.getD []).take ret)))
    else if ctx.pad_mode = RSA_PKCS1_PADDING then
      match env.ossl_rsa_verify_pkcs1 ctx.mdnid sig ctx.rsa with
      | none => (ctx, .error .RsaLibError)
      | some r => (ctx, .ok (.recovered r))
    else (ctx, .error .InvalidPaddingMode)
  else
    match env.pub_decrypt (sig.length : Int) sig ctx.rsa ctx.pad_mode with
    | none => (ctx, .error .RsaLibError)
    | some r => (ctx, .ok (.recovered r))

/-- `rsa_verify_directly(prsactx, sig, siglen, tbs, tbslen)`. -/
def rsa_verify_directly (env : Env) (ctx : PROV_RSA_CTX) (sig tbs : List Int) :
    PROV_RSA_CTX × Except Err Unit :=
  if ctx.md.isSome then
    if ctx.pad_mode = RSA_PKCS1_PADDING then
      if env.rsa_verify_pkcs1 ctx.mdnid tbs sig ctx.rsa then (ctx, .ok ())
      else (ctx, .error .RsaLibError)
    else if ctx.pad_mode = RSA_X931_PADDING then
      let ctx1 := setup_tbuf ctx
      match rsa_verify_recover env ctx1 true true 0 sig with
      | (ctx2, .error e) => (ctx2, .error e)
      | (ctx2, .ok res) =>
        match res with
        | .sizeOnly _ => (ctx2, .error .Failure)
        | .recovered r =>
          let rslen := r.length
          if rslen ≠ tbs.length ∨ (ctx2.tbuf.getD []).take rslen ≠ tbs then
            (ctx2, .error .Failure)
          else (ctx2, .ok ())
    else if ctx.pad_mode = RSA_PKCS1_PSS_PADDING then
      let mdsize := rsa_get_md_size ctx
      if (tbs.length : Int) ≠ mdsize then (ctx, .error .InvalidDigestLength)
      else
        let ctx1 := setup_tbuf ctx
        match env.pub_decrypt (sig.length : Int) sig ctx1.rsa RSA_NO_PADDING with
        | none => (ctx1, .error .RsaLibError)
        | some dec =>
          let ctx2 := {ctx1 with
            tbuf := some (tbufWrite (ctx1.tbuf.getD []) dec)}
          match env.pss_verify ctx2.rsa tbs ctx2.md ctx2.mgf1_md
              (ctx2.tbuf.getD []) ctx2.saltlen with
          | none => (ctx2, .error .RsaLibError)
          | some _ => (ctx2, .ok ())
    else (ctx, .error .InvalidPaddingMode)
  else
    let ctx1 := setup_tbuf ctx
    match env.pub_decrypt (sig.length : Int) sig ctx1.rsa ctx1.pad_mode with
    | none => (ctx1, .error .RsaLibError)
    | some dec =>
      let ctx2 := {ctx1 with tbuf := some (tbufWrite (ctx1.tbuf.getD []) dec)}
      let rslen := dec.length
      if rslen ≠ tbs.length ∨ (ctx2.tbuf.getD []).take rslen ≠ tbs then
        (ctx2, .error .Failure)
      else (ctx2, .ok ())

/-- `rsa_sigalg_set_ctx_params(vprsactx, params)`: the sigalg parameter
store; only the write-only signature parameter is handled, and only for
verify-message contexts. -/
def rsa_sigalg_set_ctx_params (ctx : PROV_RSA_CTX) (params : List SigParam) :
    PROV_RSA_CTX × Except Err Unit :=
  if params.isEmpty then (ctx, .ok ())
  else if ctx.operation = EVP_PKEY_OP_VERIFYMSG then
    match params.find? (fun p => match p with | .signature _ => true) with
    | some (.signature s) => ({ctx with sig := some s}, .ok ())
    | none => (ctx, .ok ())
  else (ctx, .ok ())

/-- `rsa_verify_set_sig(vprsactx, sig, siglen)`: stages the expected
signature through the sigalg parameter store. -/
def rsa_verify_set_sig (ctx : PROV_RSA_CTX) (sig : List Int) :
    PROV_RSA_CTX × Except Err Unit :=
  rsa_sigalg_set_ctx_params ctx [.signature sig]

/-- `rsa_verify_message_final(vprsactx)`. -/
def rsa_verify_message_final (env : Env) (ctx : PROV_RSA_CTX) :
    PROV_RSA_CTX × Except Err Unit :=
  match ctx.mdctx with
  | none => (ctx, .error .Failure)
  | some m =>
    if ¬ctx.flag_allow_final then (ctx, .error .FinalOutOfOrder)
    else
      let digest := env.hash m.md m.data
      let ctx1 := {ctx with flag_allow_update := false,
                            flag_allow_final := false,
                            flag_allow_oneshot := false}
      rsa_verify_directly env ctx1 (ctx1.sig.getD []) digest

/-- `rsa_verify(vprsactx, sig, siglen, tbs, tbslen)`: oneshot entry
point; digests first when the operation is message verification. -/
def rsa_verify (env : Env) (ctx : PROV_RSA_CTX) (sig tbs : List Int) :
    PROV_RSA_CTX × Except Err Unit :=
  if ¬ctx.flag_allow_oneshot then (ctx, .error .OneshotOutOfOrder)
  else if ctx.operation = EVP_PKEY_OP_VERIFYMSG then
    match rsa_verify_set_sig ctx sig with
    | (ctx1, .error e) => (ctx1, .error e)
    | (ctx1, .ok _) =>
      match rsa_signverify_message_update ctx1 tbs with
      | (ctx2, .error e) => (ctx2, .error e)
      | (ctx2, .ok _) => rsa_verify_message_final env ctx2
  else rsa_verify_directly env ctx sig tbs

/-! ## Duplication -/

/-- `rsa_dupctx(vprsactx)`, value level: the struct assignment
`*dstctx = *srcctx` copies every field, then the destination's `tbuf`
starts unallocated while `mdctx` is re-established as a copy of the same
digest state (`EVP_MD_CTX_copy_ex`), i.e. the same value. -/
def rsa_dupctx (ctx : PROV_RSA_CTX) : PROV_RSA_CTX :=
  {ctx with tbuf := none}

/-- Pointer-level view of the context's heap-allocated fields: each field
holds the address of the buffer/object it points to, or `none` for NULL. -/
structure CtxPtrs where
  rsa : Option Nat
  md : Option Nat
  mgf1_md : Option Nat
  mdctx : Option Nat
  tbuf : Option Nat
  propq : Option Nat
  sig : Option Nat
  deriving DecidableEq, Repr

/-- `rsa_dupctx(vprsactx)`, pointer level: `*dstctx = *srcctx` copies all
pointers; `rsa`, `md`, `mgf1_md`, `mdctx`, `tbuf` and `propq` are then
nulled and re-established — the three reference-counted engine/key objects
keep their shared address via up-ref, `mdctx` and `propq` get fresh
allocations (`freshMdctx`, `freshPropq`), `tbuf` stays NULL.  `sig` is not
in that list: the copied pointer is left as-is. -/
def rsa_dupctx_ptrs (src : CtxPtrs) (freshMdctx freshPropq : Nat) : CtxPtrs :=
  { src with
    mdctx := src.mdctx.map (fun _ => freshMdctx),
    propq := src.propq.map (fun _ => freshPropq),
    tbuf := none }

/-! ## Context initialisation and the sigalg wrappers -/

/-- `rsa_signverify_init(prsactx, vrsa, set_ctx_params, params, operation,
desc)`.  The parameter-application callback is passed in, as in the C; the
external `ossl_rsa_key_op_get_protect` always succeeds in the non-FIPS
model. -/
def rsa_signverify_init (ctx : PROV_RSA_CTX) (vrsa : Option RSAKey)
    (setp : PROV_RSA_CTX → List SigParam → PROV_RSA_CTX × Except Err Unit)
    (params : List SigParam) (operation : Int) :
    PROV_RSA_CTX × Except Err Unit :=
  if vrsa.isNone ∧ ctx.rsa.isNone then (ctx, .error .NoKeySet)
  else
    let ctx0 :=
      match vrsa with
      | some k => {ctx with rsa := some k}
      | none => ctx
    let ctx1 := {ctx0 with
      operation := operation,
      flag_allow_update := true,
      flag_allow_final := true,
      flag_allow_oneshot := true,
      saltlen := RSA_PSS_SALTLEN_AUTO_DIGEST_MAX,
      min_saltlen := -1}
    match ctx1.rsa with
    | none => (ctx1, .error .NoKeySet)
    | some key =>
      match key.typ with
      | .rsa => setp {ctx1 with pad_mode := RSA_PKCS1_PADDING} params
      | .rsassapss =>
        let ctx2 := {ctx1 with pad_mode := RSA_PKCS1_PSS_PADDING}
        match key.pss with
        | none => setp ctx2 params
        | some pss =>
          match ossl_rsa_oaeppss_nid2name pss.hashalg,
                ossl_rsa_oaeppss_nid2name pss.maskgenhashalg with
          | none, _ => (ctx2, .error .InvalidDigest)
          | some _, none => (ctx2, .error .InvalidDigest)
          | some mdname, some mgf1mdname =>
            let ctx3 := {ctx2 with
              mdname := mdname.take (OSSL_MAX_NAME_SIZE - 1)}
            if mdname.length ≥ OSSL_MAX_NAME_SIZE then
              (ctx3, .error .InvalidDigest)
            else
              let ctx4 := {ctx3 with
                mgf1_mdname := mgf1mdname.take (OSSL_MAX_NAME_SIZE - 1)}
              if mgf1mdname.length ≥ OSSL_MAX_NAME_SIZE then
                (ctx4, .error .InvalidDigest)
              else
                let ctx5 := {ctx4 with saltlen := pss.saltlen}
                match rsa_setup_mgf1_md ctx5 mgf1mdname with
                | (ctx6, .error e) => (ctx6, .error e)
                | (ctx6, .ok _) =>
                  match rsa_setup_md ctx6 (some mdname) with
                  | (ctx7, .error e) => (ctx7, .error e)
                  | (ctx7, .ok _) =>
                    match rsa_check_parameters ctx7 pss.saltlen with
                    | (ctx8, .error e) => (ctx8, .error e)
                    | (ctx8, .ok _) => setp ctx8 params

/-- `rsa_sigalg_signverify_init(vprsactx, vrsa, set_ctx_params, params,
mdname, operation, pad_mode, desc)`: fixed-sigalg init; rejects PSS-typed
keys before binding the baked-in digest or installing the wrapper's pad
mode. -/
def rsa_sigalg_signverify_init (ctx : PROV_RSA_CTX) (vrsa : Option RSAKey)
    (params : List SigParam) (mdname : String) (operation pad_mode : Int) :
    PROV_RSA_CTX × Except Err Unit :=
  match rsa_signverify_init ctx vrsa rsa_sigalg_set_ctx_params params
      operation with
  | (ctx1, .error e) => (ctx1, .error e)
  | (ctx1, .ok _) =>
    if ctx1.pad_mode = RSA_PKCS1_PSS_PADDING then
      (ctx1, .error .UnsupportedOperation)
    else
      match rsa_setup_md ctx1 (some mdname) with
      | (ctx2, .error e) => (ctx2, .error e)
      | (ctx2, .ok _) =>
        let ctx3 := {ctx2 with pad_mode := pad_mode, flag_sigalg := true,
                               flag_allow_md := false}
        match ctx3.md with
        | none => ({ctx3 with mdctx := none}, .error .Failure)
        | some m => ({ctx3 with mdctx := some ⟨m, []⟩}, .ok ())

/-! ## Concrete test fixtures -/

def mdSHA256 : MD := ⟨"SHA2-256", 32, NID_sha256, false⟩

def key512 : RSAKey := ⟨64, 512, .rsa, none⟩

def key2048 : RSAKey := ⟨256, 2048, .rsa, none⟩

def key2041 : RSAKey := ⟨256, 2041, .rsa, none⟩

def keyPssPlain : RSAKey := ⟨256, 2048, .rsassapss, none⟩

/-- A concrete oracle environment for witnesses: every primitive succeeds
with fixed byte patterns. -/
def Env.test : Env where
  hash := fun md _ => List.replicate md.size.toNat 1
  priv_encrypt := fun _ _ k _ => some (List.replicate (RSA_size k).toNat 2)
  pub_decrypt := fun _ _ k _ => some (List.replicate (RSA_size k).toNat 3)
  rsa_sign_pkcs1 := fun _ _ k => some (List.replicate (RSA_size k).toNat 4)
  rsa_verify_pkcs1 := fun _ _ _ _ => true
  ossl_rsa_verify_pkcs1 := fun _ _ _ => some (List.replicate 32 5)
  sign_mdc2 := fun _ k => some (List.replicate (RSA_size k).toNat 6)
  pss_encode := fun k _ _ _ _ => some (List.replicate (RSA_size k).toNat 7)
  pss_verify := fun _ _ _ _ _ s => some s

/-- A message-signing context mid-lifecycle (after digest-sign init). -/
def ctxSignMsg : PROV_RSA_CTX :=
  { rsa_newctx with
    rsa := some key512
    operation := EVP_PKEY_OP_SIGNMSG
    flag_allow_md := false
    flag_allow_update := true
    flag_allow_final := true
    flag_allow_oneshot := true
    md := some mdSHA256
    mdctx := some ⟨mdSHA256, []⟩
    mdnid := NID_sha256
    mdname := "SHA2-256"
    pad_mode := RSA_PKCS1_PADDING }

/-- The same context after its lifecycle flags were consumed. -/
def ctxStale : PROV_RSA_CTX :=
  { ctxSignMsg with
    flag_allow_update := false
    flag_allow_final := false
    flag_allow_oneshot := false }

/-- A primitive PSS verification context. -/
def ctxPssVerify : PROV_RSA_CTX :=
  { rsa_newctx with
    rsa := some key512
    operation := EVP_PKEY_OP_VERIFY
    flag_allow_update := true
    flag_allow_final := true
    flag_allow_oneshot := true
    md := some mdSHA256
    mdnid := NID_sha256
    mdname := "SHA2-256"
    mgf1_md := some mdSHA256
    mgf1_mdnid := NID_sha256
    mgf1_mdname := "SHA2-256"
    pad_mode := RSA_PKCS1_PSS_PADDING
    saltlen := RSA_PSS_SALTLEN_AUTO }

/-! ## Frame lemmas for the scratch buffer -/

theorem setup_tbuf_rsa (ctx : PROV_RSA_CTX) : (setup_tbuf ctx).rsa = ctx.rsa := by
  unfold setup_tbuf; split <;> rfl

theorem setup_tbuf_md (ctx : PROV_RSA_CTX) : (setup_tbuf ctx).md = ctx.md := by
  unfold setup_tbuf; split <;> rfl

theorem setup_tbuf_mgf1_md (ctx : PROV_RSA_CTX) :
    (setup_tbuf ctx).mgf1_md = ctx.mgf1_md := by
  unfold setup_tbuf; split <;> rfl

theorem setup_tbuf_saltlen (ctx : PROV_RSA_CTX) :
    (setup_tbuf ctx).saltlen = ctx.saltlen := by
  unfold setup_tbuf; split <;> rfl

theorem setup_tbuf_mdnid (ctx : PROV_RSA_CTX) :
    (setup_tbuf ctx).mdnid = ctx.mdnid := by
  unfold setup_tbuf; split <;> rfl

theorem setup_tbuf_isSome (ctx : PROV_RSA_CTX) :
    (setup_tbuf ctx).tbuf.isSome := by
  unfold setup_tbuf
  split
  · assumption
  · rfl

theorem clean_tbuf_of_isSome (ctx : PROV_RSA_CTX) (h : ctx.tbuf.isSome) :
    (clean_tbuf ctx).tbuf
      = some (List.replicate (RSA_size ctx.rsa).toNat 0) := by
  unfold clean_tbuf
  rw [if_pos h]

theorem tbufWrite_getD (old data : List Int) (i : Nat) (h : i < data.length) :
    (tbufWrite old data).getD i 0 = data.getD i 0 := by
  simp [tbufWrite, List.getD, List.getElem?_append_left h]

theorem tbufWrite_take (old data : List Int) (n : Nat) (h : n ≤ data.length) :
    (tbufWrite old data).take n = data.take n :=
  List.take_append_of_le_length h

/-! ## Stage lemmas for the salt resolver -/

theorem rsa_pss_saltlen_step1_error (ctx : PROV_RSA_CTX) (e : Err)
    (h : rsa_pss_saltlen_step1 ctx = .error e) : e = .InvalidDigest := by
  unfold rsa_pss_saltlen_step1 at h
  split at h
  · split at h <;> simp_all
  · split at h
    · split at h <;> simp_all
    · simp at h

theorem rsa_pss_saltlen_step2_error (ctx : PROV_RSA_CTX)
    (salt1 saltlenMax : Int) (e : Err)
    (h : rsa_pss_saltlen_step2 ctx salt1 saltlenMax = .error e) :
    e = .InvalidDigest ∨ e = .InvalidKey := by
  simp only [rsa_pss_saltlen_step2] at h
  by_cases hc : salt1 = RSA_PSS_SALTLEN_MAX ∨ salt1 = RSA_PSS_SALTLEN_AUTO
  · rw [if_pos hc] at h
    by_cases hmd : EVP_MD_get_size ctx.md ≤ 0
    · rw [if_pos hmd] at h
      simp_all
    · rw [if_neg hmd] at h
      by_cases hrs : RSA_size ctx.rsa ≤ 2
          ∨ RSA_size ctx.rsa - 2 < EVP_MD_get_size ctx.md
      · rw [if_pos hrs] at h
        simp_all
      · rw [if_neg hrs] at h
        simp at h
  · rw [if_neg hc] at h
    simp at h

/-! ## Claim theorems -/

/-- C2: evaluation of `rsa_dupctx` at the pointer level, at a
verify-message context holding a staged signature buffer (address 6), a
running digest state (address 3) and a scratch buffer (address 4).  The
duplicate gets a fresh digest-state allocation and no scratch buffer, but
its `sig` field still holds address 6 — the staged signature bytes are
shared with the original rather than independently copied (and both
contexts free that buffer at teardown). -/
theorem dupctx_shares_staged_signature_buffer :
    (rsa_dupctx_ptrs ⟨some 1, some 2, none, some 3, some 4, some 5, some 6⟩
        100 101).sig = some 6
    ∧ (rsa_dupctx_ptrs ⟨some 1, some 2, none, some 3, some 4, some 5, some 6⟩
        100 101).mdctx = some 100
    ∧ (rsa_dupctx_ptrs ⟨some 1, some 2, none, some 3, some 4, some 5, some 6⟩
        100 101).tbuf = none := by
  exact ⟨rfl, rfl, rfl⟩

/-- C3 counterexample: a successful primitive PSS verification returns with
the modulus-sized scratch buffer still holding the decrypted padded block
(all bytes 3), not zeros — the verify transform never cleanses `tbuf`
before returning. -/
theorem verify_exit_leaves_tbuf_unzeroed :
    (rsa_verify_directly Env.test ctxPssVerify (List.replicate 64 9)
        (List.replicate 32 8)).2 = .ok ()
    ∧ (rsa_verify_directly Env.test ctxPssVerify (List.replicate 64 9)
        (List.replicate 32 8)).1.tbuf = some (List.replicate 64 3)
    ∧ List.replicate (64 : Nat) (3 : Int) ≠ List.replicate 64 0 := by
  refine ⟨by rfl, by rfl, by decide⟩

/-- C4: a call rejected for being out of order — update without
`flag_allow_update`, final without `flag_allow_final`, oneshot sign or
verify without `flag_allow_oneshot` — returns the context exactly as it
was, with the matching out-of-order error. -/
theorem rejected_out_of_order_calls_do_not_mutate (env : Env)
    (ctx : PROV_RSA_CTX) (data tbs sig : List Int) (sigsize : Int)
    (haveSig : Bool) :
    (ctx.mdctx.isSome → ¬ctx.flag_allow_update →
      rsa_signverify_message_update ctx data
        = (ctx, .error .UpdateOutOfOrder)) ∧
    (ctx.mdctx.isSome → ¬ctx.flag_allow_final →
      rsa_sign_message_final env ctx haveSig sigsize
        = (ctx, .error .FinalOutOfOrder)) ∧
    (ctx.mdctx.isSome → ¬ctx.flag_allow_final →
      rsa_verify_message_final env ctx = (ctx, .error .FinalOutOfOrder)) ∧
    (¬ctx.flag_allow_oneshot →
      rsa_sign env ctx haveSig sigsize tbs
        = (ctx, .error .OneshotOutOfOrder)) ∧
    (¬ctx.flag_allow_oneshot →
      rsa_verify env ctx sig tbs = (ctx, .error .OneshotOutOfOrder)) := by
  refine ⟨?_, ?_, ?_, ?_, ?_⟩
  · intro h1 h2
    match hm : ctx.mdctx with
    | none => rw [hm] at h1; simp at h1
    | some m => simp [rsa_signverify_message_update, hm, h2]
  · intro h1 h2
    match hm : ctx.mdctx with
    | none => rw [hm] at h1; simp at h1
    | some m => simp [rsa_sign_message_final, hm, h2]
  · intro h1 h2
    match hm : ctx.mdctx with
    | none => rw [hm] at h1; simp at h1
    | some m => simp [rsa_verify_message_final, hm, h2]
  · intro h
    simp [rsa_sign, h]
  · intro h
    simp [rsa_verify, h]

/-- C4 witness: on a concrete consumed context, the rejected update call
returns the context unchanged with `UpdateOutOfOrder`. -/
theorem rejected_out_of_order_calls_do_not_mutate_witness :
    rsa_signverify_message_update ctxStale [1]
      = (ctxStale, .error .UpdateOutOfOrder) :=
  (rejected_out_of_order_calls_do_not_mutate Env.test ctxStale [1] [] [] 0
    true).1 (by rfl) (by decide)

/-- C5: on an initialized message context, update is rejected with
`UpdateOutOfOrder` when `flag_allow_update` is cleared; a successful
update appends the bytes to the running digest and clears
`flag_allow_oneshot`, after which both oneshot entry points (`rsa_sign`
and `rsa_verify`) fail with `OneshotOutOfOrder` without mutating the
context. -/
theorem update_gates_and_clears_oneshot (env : Env) (ctx : PROV_RSA_CTX)
    (m : MDCtx) (data sig tbs : List Int) (sigsize : Int) (haveSig : Bool)
    (hm : ctx.mdctx = some m) :
    (¬ctx.flag_allow_update →
      rsa_signverify_message_update ctx data
        = (ctx, .error .UpdateOutOfOrder)) ∧
    (ctx.flag_allow_update →
      rsa_signverify_message_update ctx data
        = ({ctx with flag_allow_oneshot := false,
                     mdctx := some ⟨m.md, m.data ++ data⟩}, .ok ())
      ∧ (rsa_signverify_message_update ctx data).1.flag_allow_oneshot = false
      ∧ rsa_sign env (rsa_signverify_message_update ctx data).1 haveSig
          sigsize tbs
        = ((rsa_signverify_message_update ctx data).1,
           .error .OneshotOutOfOrder)
      ∧ rsa_verify env (rsa_signverify_message_update ctx data).1 sig tbs
        = ((rsa_signverify_message_update ctx data).1,
           .error .OneshotOutOfOrder)) := by
  constructor
  · intro h
    simp [rsa_signverify_message_update, hm, h]
  · intro h
    have hupd : rsa_signverify_message_update ctx data
        = ({ctx with flag_allow_oneshot := false,
                     mdctx := some ⟨m.md, m.data ++ data⟩}, .ok ()) := by
      simp [rsa_signverify_message_update, hm, h]
    refine ⟨hupd, ?_, ?_, ?_⟩
    · rw [hupd]
    · rw [hupd]
      simp [rsa_sign]
    · rw [hupd]
      simp [rsa_verify]

/-- C5 witness: a concrete update on a fresh message-signing context
succeeds, clears the oneshot permission, and the following oneshot sign
and verify calls are rejected. -/
theorem update_gates_and_clears_oneshot_witness :
    rsa_signverify_message_update ctxSignMsg [10, 11]
      = ({ctxSignMsg with flag_allow_oneshot := false,
                          mdctx := some ⟨mdSHA256, [10, 11]⟩}, .ok ())
    ∧ (rsa_signverify_message_update ctxSignMsg [10, 11]).1.flag_allow_oneshot
      = false
    ∧ rsa_sign Env.test (rsa_signverify_message_update ctxSignMsg [10, 11]).1
        true 64 [12]
      = ((rsa_signverify_message_update ctxSignMsg [10, 11]).1,
         .error .OneshotOutOfOrder)
    ∧ rsa_verify Env.test
        (rsa_signverify_message_update ctxSignMsg [10, 11]).1 [13] [12]
      = ((rsa_signverify_message_update ctxSignMsg [10, 11]).1,
         .error .OneshotOutOfOrder) :=
  (update_gates_and_clears_oneshot Env.test ctxSignMsg ⟨mdSHA256, []⟩
    [10, 11] [13] [12] 64 true (by rfl)).2 (by decide)

/-- C8: a sign or final call with an absent destination buffer
(`sig == NULL`) answers the size query with the key's modulus byte size
and returns the context exactly as it was: no digest finalisation, no
flag changes, no cryptographic work. -/
theorem size_query_performs_no_work (env : Env) (ctx : PROV_RSA_CTX)
    (sigsize : Int) (tbs : List Int) :
    (rsa_sign_directly env ctx false sigsize tbs
      = (ctx, .ok (.sizeOnly (RSA_size ctx.rsa)))) ∧
    (ctx.mdctx.isSome → ctx.flag_allow_final →
      rsa_sign_message_final env ctx false sigsize
        = (ctx, .ok (.sizeOnly (RSA_size ctx.rsa)))) ∧
    (ctx.flag_allow_oneshot →
      (ctx.operation = EVP_PKEY_OP_SIGNMSG →
        ctx.mdctx.isSome ∧ ctx.flag_allow_final) →
      rsa_sign env ctx false sigsize tbs
        = (ctx, .ok (.sizeOnly (RSA_size ctx.rsa)))) := by
  have hdir : ∀ t : List Int, rsa_sign_directly env ctx false sigsize t
      = (ctx, .ok (.sizeOnly (RSA_size ctx.rsa))) := by
    intro t
    simp [rsa_sign_directly]
  have hfin : ctx.mdctx.isSome → ctx.flag_allow_final →
      rsa_sign_message_final env ctx false sigsize
        = (ctx, .ok (.sizeOnly (RSA_size ctx.rsa))) := by
    intro h1 h2
    match hm : ctx.mdctx with
    | none => rw [hm] at h1; simp at h1
    | some m =>
      unfold rsa_sign_message_final
      rw [hm]
      simp [h2, hdir]
  refine ⟨hdir tbs, hfin, ?_⟩
  intro h1 h2
  unfold rsa_sign
  simp only [h1, not_true_eq_false, if_false]
  by_cases hop : ctx.operation = EVP_PKEY_OP_SIGNMSG
  · obtain ⟨ha, hb⟩ := h2 hop
    simp [hop, hfin ha hb]
  · simp [hop, hdir]

/-- C8 witness: the size query on a concrete message-signing context with
a 512-bit key answers 64 and leaves the context untouched. -/
theorem size_query_performs_no_work_witness :
    rsa_sign_message_final Env.test ctxSignMsg false 0
      = (ctxSignMsg, .ok (.sizeOnly 64)) :=
  (size_query_performs_no_work Env.test ctxSignMsg 0 []).2.1 (by rfl) (by decide)

/-- C6: the salt resolver never returns a negative value (a negative
intermediate is rejected as `InternalError` before the floor check, so any
returned value is ≥ 0 and ≥ `min_saltlen`), and a computed value below the
configured floor is rejected with `PssSaltTooSmall` carrying exactly the
floor and the computed value. -/
theorem resolved_saltlen_nonnegative_and_floored (ctx : PROV_RSA_CTX) :
    (∀ v, rsa_pss_compute_saltlen ctx = .ok v →
      0 ≤ v ∧ ctx.min_saltlen ≤ v) ∧
    (∀ f a, rsa_pss_compute_saltlen ctx = .error (.PssSaltTooSmall f a) →
      f = ctx.min_saltlen ∧ 0 ≤ a ∧ a < f) := by
  constructor
  · intro v hv
    unfold rsa_pss_compute_saltlen at hv
    rcases h1 : rsa_pss_saltlen_step1 ctx with e | p
    · rw [h1] at hv
      simp at hv
    · obtain ⟨s1, sm⟩ := p
      rw [h1] at hv
      dsimp only at hv
      rcases h2 : rsa_pss_saltlen_step2 ctx s1 sm with e | s
      · rw [h2] at hv
        simp at hv
      · rw [h2] at hv
        dsimp only at hv
        unfold rsa_pss_saltlen_finish at hv
        split at hv
        · simp at hv
        · split at hv
          · simp at hv
          · injection hv with h
            subst h
            omega
  · intro f a hv
    unfold rsa_pss_compute_saltlen at hv
    rcases h1 : rsa_pss_saltlen_step1 ctx with e | p
    · rw [h1] at hv
      simp only [Except.error.injEq] at hv
      subst hv
      exact absurd (rsa_pss_saltlen_step1_error ctx _ h1) (by simp)
    · obtain ⟨s1, sm⟩ := p
      rw [h1] at hv
      dsimp only at hv
      rcases h2 : rsa_pss_saltlen_step2 ctx s1 sm with e | s
      · rw [h2] at hv
        simp only [Except.error.injEq] at hv
        subst hv
        rcases rsa_pss_saltlen_step2_error ctx s1 sm _ h2 with h | h <;>
          simp at h
      · rw [h2] at hv
        dsimp only at hv
        unfold rsa_pss_saltlen_finish at hv
        split at hv
        · simp at hv
        · split at hv
          · injection hv with h
            injection h with hf ha
            omega
          · simp at hv

/-- C6 witness: on a concrete unrestricted PSS context with a 512-bit key
and SHA2-256 under the MAX policy, the resolver returns 30, which the
theorem shows is ≥ 0 and not below the floor (-1). -/
theorem resolved_saltlen_nonnegative_and_floored_witness :
    (0 : Int) ≤ 30
      ∧ ({ctxPssVerify with saltlen := RSA_PSS_SALTLEN_MAX}).min_saltlen ≤ 30 :=
  (resolved_saltlen_nonnegative_and_floored
    {ctxPssVerify with saltlen := RSA_PSS_SALTLEN_MAX}).1 30 (by rfl)

/-- Salt-length formula stated by the spec for the MAX/AUTO policies
(§4.3 step 3): modulus bytes minus digest size minus 2, minus one more
when the modulus bit length is ≡ 1 (mod 8). -/
def specMaxSalt (k : RSAKey) (m : MD) : Int :=
  k.size - m.size - 2 - (if k.bits % 8 = 1 then 1 else 0)

/-- C1: under the MAX, AUTO or AUTO_DIGEST_MAX salt policies, the resolver
fails with `InvalidKey` exactly when the modulus cannot hold the digest
plus two overhead bytes, and otherwise (when the later non-negativity and
floor checks pass) returns `modulusBytes - digestSize - 2`, one less for
odd-bit-length moduli, clamped to the digest size for AUTO_DIGEST_MAX. -/
theorem saltlen_max_auto_formula (ctx : PROV_RSA_CTX) (k : RSAKey) (m : MD)
    (hk : ctx.rsa = some k) (hm : ctx.md = some m) (hms : 0 < m.size)
    (hpol : ctx.saltlen = RSA_PSS_SALTLEN_MAX
        ∨ ctx.saltlen = RSA_PSS_SALTLEN_AUTO
        ∨ ctx.saltlen = RSA_PSS_SALTLEN_AUTO_DIGEST_MAX) :
    (k.size < m.size + 2 → rsa_pss_compute_saltlen ctx = .error .InvalidKey) ∧
    (m.size + 2 ≤ k.size →
      ∀ v, v = (if ctx.saltlen = RSA_PSS_SALTLEN_AUTO_DIGEST_MAX
                then min (specMaxSalt k m) m.size
                else specMaxSalt k m) →
      0 ≤ v → ctx.min_saltlen ≤ v → rsa_pss_compute_saltlen ctx = .ok v) := by
  have hsz : EVP_MD_get_size ctx.md = m.size := by
    rw [hm]; rfl
  have hks : RSA_size ctx.rsa = k.size := by
    rw [hk]; rfl
  have hkb : RSA_bits ctx.rsa = k.bits := by
    rw [hk]; rfl
  have hunc : rsa_pss_saltlen_unclamped ctx = specMaxSalt k m := by
    unfold rsa_pss_saltlen_unclamped specMaxSalt
    rw [hsz, hks, hkb]
    split_ifs <;> omega
  constructor
  · intro hsmall
    have h2err : ∀ s1 sm : Int,
        (s1 = RSA_PSS_SALTLEN_MAX ∨ s1 = RSA_PSS_SALTLEN_AUTO) →
        rsa_pss_saltlen_step2 ctx s1 sm = .error .InvalidKey := by
      intro s1 sm hs1
      unfold rsa_pss_saltlen_step2
      rw [if_pos hs1, hsz, hks]
      rw [if_neg (by omega), if_pos (by omega)]
    unfold rsa_pss_compute_saltlen
    rcases hpol with h | h | h
    · have h1 : rsa_pss_saltlen_step1 ctx = .ok (ctx.saltlen, -1) := by
        unfold rsa_pss_saltlen_step1
        rw [if_neg (by rw [h]; decide), if_neg (by rw [h]; decide)]
      rw [h1]
      dsimp only
      rw [h2err ctx.saltlen (-1) (Or.inl h)]
    · have h1 : rsa_pss_saltlen_step1 ctx = .ok (ctx.saltlen, -1) := by
        unfold rsa_pss_saltlen_step1
        rw [if_neg (by rw [h]; decide), if_neg (by rw [h]; decide)]
      rw [h1]
      dsimp only
      rw [h2err ctx.saltlen (-1) (Or.inr h)]
    · have h1 : rsa_pss_saltlen_step1 ctx
          = .ok (RSA_PSS_SALTLEN_MAX, m.size) := by
        unfold rsa_pss_saltlen_step1
        rw [if_neg (by rw [h]; decide), if_pos h, hsz,
          if_neg (by omega)]
      rw [h1]
      dsimp only
      rw [h2err RSA_PSS_SALTLEN_MAX m.size (Or.inl rfl)]
  · intro hbig v hveq h0 hmin
    have hfin : ∀ s : Int, 0 ≤ s → ctx.min_saltlen ≤ s →
        rsa_pss_saltlen_finish ctx s = .ok s := by
      intro s hs1 hs2
      unfold rsa_pss_saltlen_finish
      rw [if_neg (by omega), if_neg (by omega)]
    unfold rsa_pss_compute_saltlen
    rcases hpol with h | h | h
    · have h1 : rsa_pss_saltlen_step1 ctx = .ok (ctx.saltlen, -1) := by
        unfold rsa_pss_saltlen_step1
        rw [if_neg (by rw [h]; decide), if_neg (by rw [h]; decide)]
      have hvv : v = specMaxSalt k m := by
        rw [hveq, if_neg (by rw [h]; decide)]
      have h2 : rsa_pss_saltlen_step2 ctx ctx.saltlen (-1) = .ok v := by
        unfold rsa_pss_saltlen_step2
        rw [if_pos (Or.inl h), hsz, hks]
        rw [if_neg (by omega), if_neg (by omega)]
        rw [if_neg (fun hc => absurd hc.1 (by decide))]
        rw [hunc, ← hvv]
      rw [h1]
      dsimp only
      rw [h2]
      dsimp only
      exact hfin _ h0 hmin
    · have h1 : rsa_pss_saltlen_step1 ctx = .ok (ctx.saltlen, -1) := by
        unfold rsa_pss_saltlen_step1
        rw [if_neg (by rw [h]; decide), if_neg (by rw [h]; decide)]
      have hvv : v = specMaxSalt k m := by
        rw [hveq, if_neg (by rw [h]; decide)]
      have h2 : rsa_pss_saltlen_step2 ctx ctx.saltlen (-1) = .ok v := by
        unfold rsa_pss_saltlen_step2
        rw [if_pos (Or.inr h), hsz, hks]
        rw [if_neg (by omega), if_neg (by omega)]
        rw [if_neg (fun hc => absurd hc.1 (by decide))]
        rw [hunc, ← hvv]
      rw [h1]
      dsimp only
      rw [h2]
      dsimp only
      exact hfin _ h0 hmin
    · have h1 : rsa_pss_saltlen_step1 ctx
          = .ok (RSA_PSS_SALTLEN_MAX, m.size) := by
        unfold rsa_pss_saltlen_step1
        rw [if_neg (by rw [h]; decide), if_pos h, hsz,
          if_neg (by omega)]
      have hvv : v = min (specMaxSalt k m) m.size := by
        rw [hveq, if_pos h]
      have h2 : rsa_pss_saltlen_step2 ctx RSA_PSS_SALTLEN_MAX m.size
          = .ok v := by
        unfold rsa_pss_saltlen_step2
        rw [if_pos (Or.inl rfl), hsz, hks]
        rw [if_neg (by omega), if_neg (by omega)]
        by_cases hcl : m.size < rsa_pss_saltlen_unclamped ctx
        · rw [if_pos ⟨by omega, hcl⟩, hvv]
          rw [hunc] at hcl
          rw [min_eq_right (by omega)]
        · rw [if_neg (fun hc => hcl hc.2), hvv]
          rw [hunc] at hcl
          rw [hunc, min_eq_left (by omega)]
      rw [h1]
      dsimp only
      rw [h2]
      dsimp only
      exact hfin _ h0 hmin

/-- C1 witness: on a 2048-bit key (bit length ≡ 0 mod 8) with SHA2-256
under the MAX policy, the resolver returns 256 - 32 - 2 = 222. -/
theorem saltlen_max_auto_formula_witness :
    rsa_pss_compute_saltlen
        {ctxPssVerify with rsa := some key2048, saltlen := RSA_PSS_SALTLEN_MAX}
      = .ok 222 :=
  (saltlen_max_auto_formula
    {ctxPssVerify with rsa := some key2048, saltlen := RSA_PSS_SALTLEN_MAX}
    key2048 mdSHA256 rfl rfl (by decide) (Or.inl rfl)).2
    (by decide) 222 (by decide) (by decide) (by decide)

/-- C7: when digest changes are locked (`flag_allow_md` cleared), binding a
resolvable, RSA-sign-capable, non-XOF, padding-compatible digest whose
name is not identity-equal to the currently bound digest fails with
`DigestNotAllowed` and mutates nothing; binding the identical digest
succeeds, also without mutation. -/
theorem locked_digest_rejects_different_name (ctx : PROV_RSA_CTX)
    (name : String) (md : MD)
    (hallow : ¬ctx.flag_allow_md)
    (hfetch : EVP_MD_fetch name = some md)
    (hnid : md.rsaSignNid ≠ NID_undef)
    (hxof : ¬md.xof)
    (hpad : rsa_check_padding ctx (some name) none md.rsaSignNid = .ok ())
    (hlen : name.length < OSSL_MAX_NAME_SIZE)
    (hbound : ctx.mdname ≠ "") :
    (¬EVP_MD_is_a md ctx.mdname →
      rsa_setup_md ctx (some name) = (ctx, .error .DigestNotAllowed)) ∧
    (EVP_MD_is_a md ctx.mdname →
      rsa_setup_md ctx (some name) = (ctx, .ok ())) := by
  constructor
  · intro hid
    unfold rsa_setup_md
    dsimp only
    rw [hfetch]
    dsimp only
    rw [if_neg hnid, if_neg hxof, hpad]
    dsimp only
    rw [if_neg (by omega), if_pos hallow, if_pos ⟨hbound, hid⟩]
  · intro hid
    unfold rsa_setup_md
    dsimp only
    rw [hfetch]
    dsimp only
    rw [if_neg hnid, if_neg hxof, hpad]
    dsimp only
    rw [if_neg (by omega), if_pos hallow, if_neg (fun hc => hc.2 hid)]

/-- C7 witness: a sigalg-locked context bound to SHA2-256 rejects binding
SHA1 with `DigestNotAllowed`, returning the context unchanged. -/
theorem locked_digest_rejects_different_name_witness :
    rsa_setup_md ctxSignMsg (some "SHA1")
      = (ctxSignMsg, .error .DigestNotAllowed) :=
  (locked_digest_rejects_different_name ctxSignMsg "SHA1"
    ⟨"SHA1", 20, NID_sha1, false⟩ (by decide) (by rfl) (by decide) (by decide)
    (by rfl) (by decide) (by decide)).1 (by decide)

/-- C9: X9.31 verify-recover applies the public transform, strips the
final trailer byte and rejects with `AlgorithmMismatch` when it differs
from the X9.31 identifier of the bound digest, rejects with
`InvalidDigestLength` when the remaining length differs from the digest
output size, and otherwise returns exactly the recovered digest-size
bytes. -/
theorem x931_verify_recover_strips_and_checks_trailer (env : Env)
    (ctx : PROV_RSA_CTX) (m : MD) (sig rec0 : List Int) (routsize : Int)
    (hmd : ctx.md = some m)
    (hpad : ctx.pad_mode = RSA_X931_PADDING)
    (hdec : env.pub_decrypt (sig.length : Int) sig ctx.rsa RSA_X931_PADDING
        = some rec0)
    (hne : rec0 ≠ []) :
    (rec0.getD (rec0.length - 1) 0 ≠ RSA_X931_hash_id ctx.mdnid →
      (rsa_verify_recover env ctx true false routsize sig).2
        = .error .AlgorithmMismatch) ∧
    (rec0.getD (rec0.length - 1) 0 = RSA_X931_hash_id ctx.mdnid →
      (((rec0.length - 1 : Nat) : Int) ≠ m.size →
        (rsa_verify_recover env ctx true false routsize sig).2
          = .error .InvalidDigestLength) ∧
      (((rec0.length - 1 : Nat) : Int) = m.size →
        ¬routsize < ((rec0.length - 1 : Nat) : Int) →
        (rsa_verify_recover env ctx true false routsize sig).2
          = .ok (.recovered (rec0.take (rec0.length - 1))))) := by
  have hlen1 : 0 < rec0.length := List.length_pos.mpr hne
  have hgd : (tbufWrite ((setup_tbuf ctx).tbuf.getD []) rec0).getD
      (rec0.length - 1) 0 = rec0.getD (rec0.length - 1) 0 :=
    tbufWrite_getD _ _ _ (by omega)
  constructor
  · intro htr
    unfold rsa_verify_recover
    rw [if_neg (fun hc => hc rfl), hmd]
    rw [if_pos (Option.isSome_some (a := m)), if_pos hpad]
    dsimp only
    rw [setup_tbuf_rsa, hdec]
    dsimp only
    rw [if_neg (by omega), setup_tbuf_mdnid]
    simp only [Option.getD_some]
    rw [hgd, if_pos htr]
  · intro htr
    constructor
    · intro hlen2
      unfold rsa_verify_recover
      rw [if_neg (fun hc => hc rfl), hmd]
      rw [if_pos (Option.isSome_some (a := m)), if_pos hpad]
      dsimp only
      rw [setup_tbuf_rsa, hdec]
      dsimp only
      rw [if_neg (by omega), setup_tbuf_mdnid]
      simp only [Option.getD_some]
      rw [hgd, if_neg (fun hc => hc htr), setup_tbuf_md, hmd]
      dsimp only [EVP_MD_get_size]
      rw [if_pos hlen2]
    · intro hlen2 hrs
      unfold rsa_verify_recover
      rw [if_neg (fun hc => hc rfl), hmd]
      rw [if_pos (Option.isSome_some (a := m)), if_pos hpad]
      dsimp only
      rw [setup_tbuf_rsa, hdec]
      dsimp only
      rw [if_neg (by omega), setup_tbuf_mdnid]
      simp only [Option.getD_some]
      rw [hgd, if_neg (fun hc => hc htr), setup_tbuf_md, hmd]
      dsimp only [EVP_MD_get_size]
      rw [if_neg (fun hc => hc hlen2), if_neg hrs,
        tbufWrite_take _ _ _ (by omega)]
      simp

/-- C9 witness: with a recovered block of 32 bytes 5 followed by the SHA-256
trailer byte 0x34, verify-recover on an X9.31 context returns exactly the
32 recovered bytes. -/
theorem x931_verify_recover_strips_and_checks_trailer_witness :
    (rsa_verify_recover
        (let rec0 : List Int := List.replicate 32 5 ++ [0x34]
         { Env.test with pub_decrypt := fun _ _ _ _ => some rec0 })
        {ctxSignMsg with pad_mode := RSA_X931_PADDING} true false 64
        (List.replicate 64 9)).2
      = .ok (.recovered ((List.replicate 32 5 ++ [0x34]).take 32)) := by
  have h := (x931_verify_recover_strips_and_checks_trailer
    (let rec0 : List Int := List.replicate 32 5 ++ [0x34]
     { Env.test with pub_decrypt := fun _ _ _ _ => some rec0 })
    {ctxSignMsg with pad_mode := RSA_X931_PADDING} mdSHA256
    (List.replicate 64 9) (List.replicate 32 5 ++ [0x34]) 64
    (by rfl) (by rfl) (by rfl) (by decide)).2 (by decide)
  exact h.2 (by decide) (by decide)

/-- C3 amended: the sign transform zeroes the modulus-sized scratch buffer
before returning on the exit paths that follow the padding and private-key
steps — X9.31 always (success or primitive failure), PSS whenever the
padding-encode step succeeded (again success or primitive failure).  The
PSS padding-encode failure path and the verify transforms return without
zeroing it (see the counterexample theorem); teardown zeroes it instead. -/
theorem sign_transform_zeroes_tbuf_after_encode (env : Env)
    (ctx : PROV_RSA_CTX) (sigsize : Int) (tbs : List Int)
    (hsz : ¬sigsize < RSA_size ctx.rsa)
    (hmd : rsa_get_md_size ctx ≠ 0)
    (hlen : (tbs.length : Int) = rsa_get_md_size ctx)
    (hmdc2 : ¬EVP_MD_is_a_opt ctx.md "MDC2") :
    (ctx.pad_mode = RSA_X931_PADDING →
      ¬RSA_size ctx.rsa < (tbs.length : Int) + 1 →
      (rsa_sign_directly env ctx true sigsize tbs).1.tbuf
        = some (List.replicate (RSA_size ctx.rsa).toNat 0)) ∧
    (ctx.pad_mode = RSA_PKCS1_PSS_PADDING →
      ¬(rsa_pss_restricted ctx ∧ ctx.saltlen = RSA_PSS_SALTLEN_DIGEST
        ∧ ctx.min_saltlen > EVP_MD_get_size ctx.md) →
      ¬(rsa_pss_restricted ctx ∧ 0 ≤ ctx.saltlen
        ∧ ctx.saltlen < ctx.min_saltlen) →
      ∀ em, env.pss_encode ctx.rsa tbs ctx.md ctx.mgf1_md ctx.saltlen
          = some em →
      (rsa_sign_directly env ctx true sigsize tbs).1.tbuf
        = some (List.replicate (RSA_size ctx.rsa).toNat 0)) := by
  constructor
  · intro hpad hks
    unfold rsa_sign_directly
    rw [if_neg (fun hc => hc rfl), if_neg hsz, if_pos hmd,
      if_neg (fun hc => hc hlen), if_neg hmdc2, if_pos hpad, if_neg hks]
    dsimp only
    split <;>
    · dsimp only
      rw [clean_tbuf_of_isSome _ (by rfl)]
      dsimp only
      rw [setup_tbuf_rsa]
  · intro hpad hr1 hr2 em henc
    unfold rsa_sign_directly
    rw [if_neg (fun hc => hc rfl), if_neg hsz, if_pos hmd,
      if_neg (fun hc => hc hlen), if_neg hmdc2,
      if_neg (by rw [hpad]; decide), if_neg (by rw [hpad]; decide),
      if_pos hpad, if_neg hr1, if_neg hr2]
    dsimp only
    rw [setup_tbuf_rsa, setup_tbuf_md, setup_tbuf_mgf1_md,
      setup_tbuf_saltlen, henc]
    dsimp only
    split <;>
    · dsimp only
      rw [clean_tbuf_of_isSome _ (by rfl)]

/-- C3 amended witness: a concrete X9.31 signing call on a 512-bit key
leaves the scratch buffer as 64 zero bytes. -/
theorem sign_transform_zeroes_tbuf_after_encode_witness :
    (rsa_sign_directly Env.test {ctxSignMsg with pad_mode := RSA_X931_PADDING}
        true 64 (List.replicate 32 7)).1.tbuf
      = some (List.replicate 64 0) :=
  (sign_transform_zeroes_tbuf_after_encode Env.test
    {ctxSignMsg with pad_mode := RSA_X931_PADDING} 64 (List.replicate 32 7)
    (by decide) (by decide) (by decide) (by decide)).1 (by rfl) (by decide)

/-! ## Frame lemmas for init: digest binding and the sigalg parameter
store never change the pad mode or the sigalg flag. -/

theorem rsa_setup_mgf1_md_frame (ctx : PROV_RSA_CTX) (name : String)
    (ctx' : PROV_RSA_CTX) (r : Except Err Unit)
    (h : rsa_setup_mgf1_md ctx name = (ctx', r)) :
    ctx'.pad_mode = ctx.pad_mode ∧ ctx'.flag_sigalg = ctx.flag_sigalg := by
  unfold rsa_setup_mgf1_md at h
  repeat'
    first
    | (injection h with h1 h2; subst h1; exact ⟨rfl, rfl⟩)
    | (injection h with h1 h2; subst h1;
        constructor <;> (dsimp only; split <;> rfl))
    | split at h
    | dsimp only at h

theorem rsa_setup_md_frame (ctx : PROV_RSA_CTX) (mdname : Option String)
    (ctx' : PROV_RSA_CTX) (r : Except Err Unit)
    (h : rsa_setup_md ctx mdname = (ctx', r)) :
    ctx'.pad_mode = ctx.pad_mode ∧ ctx'.flag_sigalg = ctx.flag_sigalg := by
  unfold rsa_setup_md at h
  repeat'
    first
    | (injection h with h1 h2; subst h1; exact ⟨rfl, rfl⟩)
    | (injection h with h1 h2; subst h1;
        constructor <;> (dsimp only; split <;> rfl))
    | split at h
    | dsimp only at h

theorem rsa_check_parameters_frame (ctx : PROV_RSA_CTX) (msl : Int)
    (ctx' : PROV_RSA_CTX) (r : Except Err Unit)
    (h : rsa_check_parameters ctx msl = (ctx', r)) :
    ctx'.pad_mode = ctx.pad_mode ∧ ctx'.flag_sigalg = ctx.flag_sigalg := by
  unfold rsa_check_parameters at h
  repeat'
    first
    | (injection h with h1 h2; subst h1; exact ⟨rfl, rfl⟩)
    | split at h
    | dsimp only at h

theorem rsa_sigalg_set_ctx_params_frame (ctx : PROV_RSA_CTX)
    (params : List SigParam) (ctx' : PROV_RSA_CTX) (r : Except Err Unit)
    (h : rsa_sigalg_set_ctx_params ctx params = (ctx', r)) :
    ctx'.pad_mode = ctx.pad_mode ∧ ctx'.flag_sigalg = ctx.flag_sigalg := by
  unfold rsa_sigalg_set_ctx_params at h
  repeat'
    first
    | (injection h with h1 h2; subst h1; exact ⟨rfl, rfl⟩)
    | split at h
    | dsimp only at h

/-- On an RSA-PSS-typed key, a successful generic init always leaves the
context with PSS pad mode and an untouched sigalg flag. -/
theorem rsa_signverify_init_pss_pad (ctx : PROV_RSA_CTX) (k : RSAKey)
    (params : List SigParam) (operation : Int) (ctx1 : PROV_RSA_CTX)
    (hk : k.typ = .rsassapss)
    (h : rsa_signverify_init ctx (some k) rsa_sigalg_set_ctx_params params
        operation = (ctx1, .ok ())) :
    ctx1.pad_mode = RSA_PKCS1_PSS_PADDING
    ∧ ctx1.flag_sigalg = ctx.flag_sigalg := by
  unfold rsa_signverify_init at h
  rw [if_neg (by simp)] at h
  dsimp only at h
  rw [hk] at h
  dsimp only at h
  rcases hp : k.pss with _ | pss <;> rw [hp] at h <;> (try dsimp only at h)
  · have e := rsa_sigalg_set_ctx_params_frame _ _ _ _ h
    exact ⟨e.1, e.2⟩
  · rcases hn1 : ossl_rsa_oaeppss_nid2name pss.hashalg with _ | mdn <;>
      rw [hn1] at h <;> (try dsimp only at h)
    · exact absurd h (by simp)
    rcases hn2 : ossl_rsa_oaeppss_nid2name pss.maskgenhashalg with _ | mgn <;>
      rw [hn2] at h <;> (try dsimp only at h)
    · exact absurd h (by simp)
    split at h
    · exact absurd h (by simp)
    split at h
    · exact absurd h (by simp)
    split at h
    · exact absurd h (by simp)
    rename_i heq1
    split at h
    · exact absurd h (by simp)
    rename_i heq2
    split at h
    · exact absurd h (by simp)
    rename_i heq3
    have e1 := rsa_setup_mgf1_md_frame _ _ _ _ heq1
    have e2 := rsa_setup_md_frame _ _ _ _ heq2
    have e3 := rsa_check_parameters_frame _ _ _ _ heq3
    have e4 := rsa_sigalg_set_ctx_params_frame _ _ _ _ h
    constructor
    · rw [e4.1, e3.1, e2.1, e1.1]
    · rw [e4.2, e3.2, e2.2, e1.2]

/-- C10: a fixed-sigalg wrapper init run with an RSA-PSS-typed key fails
with the operation-not-supported error right after the generic init
derived PSS pad mode from the key's type tag: the returned context is
exactly the generic-init result — still PSS pad mode, `flag_sigalg`
untouched — so the baked-in digest was never bound and the PKCS1v15 pad
mode was never installed. -/
theorem sigalg_init_rejects_pss_keys (ctx ctx1 : PROV_RSA_CTX) (k : RSAKey)
    (params : List SigParam) (mdname : String) (operation pad_mode : Int)
    (hk : k.typ = .rsassapss)
    (hinit : rsa_signverify_init ctx (some k) rsa_sigalg_set_ctx_params params
        operation = (ctx1, .ok ())) :
    rsa_sigalg_signverify_init ctx (some k) params mdname operation pad_mode
      = (ctx1, .error .UnsupportedOperation)
    ∧ ctx1.pad_mode = RSA_PKCS1_PSS_PADDING
    ∧ ctx1.flag_sigalg = ctx.flag_sigalg := by
  have hp := rsa_signverify_init_pss_pad ctx k params operation ctx1 hk hinit
  refine ⟨?_, hp.1, hp.2⟩
  unfold rsa_sigalg_signverify_init
  rw [hinit]
  dsimp only
  rw [if_pos hp.1]

/-- C10 witness: the SHA2-256 sigalg sign init on a concrete unrestricted
RSA-PSS key fails with the keytype error, returning the generic-init
state. -/
theorem sigalg_init_rejects_pss_keys_witness :
    rsa_sigalg_signverify_init rsa_newctx (some keyPssPlain) [] "SHA2-256"
        EVP_PKEY_OP_SIGN RSA_PKCS1_PADDING
      = ((rsa_signverify_init rsa_newctx (some keyPssPlain)
            rsa_sigalg_set_ctx_params [] EVP_PKEY_OP_SIGN).1,
         .error .UnsupportedOperation) :=
  (sigalg_init_rejects_pss_keys rsa_newctx
    (rsa_signverify_init rsa_newctx (some keyPssPlain)
      rsa_sigalg_set_ctx_params [] EVP_PKEY_OP_SIGN).1
    keyPssPlain [] "SHA2-256" EVP_PKEY_OP_SIGN RSA_PKCS1_PADDING
    (by rfl) (by rfl)).1

end RsaSig
